import Mathlib

/-!
# Verification of the GNSSIR batch pipelines

Shallow embedding of the two batch pipelines of the GNSSIR repository:

* `src/satref2rinex.py` — the remote fetch pipeline (download → gunzip →
  Hatanaka codec conversion → cleanup), embedded as `GNSSIR.satref2rinex`;
* `src/rinex_convert.py` — the local RINEX version-conversion pipeline,
  embedded as `GNSSIR.rinex_convert`.

The filesystem is modelled as the finite set of existing file paths
(`Finset String`).  External collaborators (the HTTP service, gzip, the
Hatanaka codec, `os.remove`, `subprocess.run`) are modelled by per-day
oracles describing the outcome of each call, per the interface the Python
code relies on.  Python exceptions are modelled with `Except PyExn`;
an `Except.error` escaping a function models an exception propagating to
its caller.
-/

namespace GNSSIR

/-! ## ASCII case mapping

Models Python `str.lower()` / `str.upper()` on the ASCII range (the only
range the case-equivalence statements quantify over): an ASCII letter is
mapped to the other case, every other character is left unchanged.  A pair
of strings that are equal up to ASCII case differ only at ASCII letters, so
on such pairs this agrees with Python's full Unicode case mapping. -/

def lowerChar (c : Char) : Char :=
  if 65 ≤ c.toNat ∧ c.toNat ≤ 90 then Char.ofNat (c.toNat + 32) else c

def upperChar (c : Char) : Char :=
  if 97 ≤ c.toNat ∧ c.toNat ≤ 122 then Char.ofNat (c.toNat - 32) else c

/-- Python `s.lower()` (character-wise). -/
def pyLower (s : String) : String := String.mk (s.data.map lowerChar)

/-- Python `s.upper()` (character-wise). -/
def pyUpper (s : String) : String := String.mk (s.data.map upperChar)

/-! ## Zero-padded decimal formatting

`formatDoy3` models the Python format expressions `f"{doy:03}"`
(`satref2rinex.py` line 52) and `f"{doy:03d}"` (`rinex_convert.py`
line 52), which are the same format: decimal rendering zero-padded to a
minimum total width of 3, the padding inserted after the sign. -/

def zeroPad (width : Nat) (s : String) : String :=
  String.mk (List.replicate (width - s.length) '0') ++ s

def formatDoy3 (doy : Int) : String :=
  if doy < 0 then "-" ++ zeroPad 2 (Nat.repr (-doy).toNat)
  else zeroPad 3 (Nat.repr doy.toNat)

/-- Python `str(year % 100)` (`rinex_convert.py` line 54).  Python's `%` on
a positive modulus returns a non-negative result, which is `Int.emod`. -/
def yearShort (year : Int) : String := Int.repr (year % 100)

/-! ## Day-range iterator

Models `range(doy_start, doy_end + 1)` as iterated by the `for` loop of
both pipelines. -/

def dayRange (doyStart doyEnd : Int) : List Int :=
  List.map (fun i : Nat => doyStart + (i : Int)) (List.range (doyEnd + 1 - doyStart).toNat)

/-! ## Filesystem model -/

/-- A filesystem state: the set of paths at which a file exists. -/
abbrev FS := Finset String

/-- Creating (or truncating) a file at a path: `open(p, "wb")`. -/
def createFile (p : String) (fs : FS) : FS := insert p fs

/-- The Python exceptions the two scripts can encounter.  `osError` covers
`OSError` and its subclasses (`FileNotFoundError` raised by `os.remove` on
a missing path included); every constructor is a subclass of `Exception`. -/
inductive PyExn where
  | requestException
  | gzipError
  | hatanakaError
  | osError
  | calledProcessError
  | fileNotFoundError
deriving DecidableEq

/-- `os.remove p`: succeeds (removing the file) only when the file exists
and the OS allows the removal (`allowed`); otherwise raises an `OSError`. -/
def removeAttempt (allowed : Bool) (p : String) (fs : FS) : Except PyExn FS :=
  if p ∈ fs ∧ allowed = true then .ok (fs.erase p) else .error .osError

/-- An `except OSError` clause: the handler value on `osError`, re-raising
any other exception. -/
def catchOSError {α : Type} (e : PyExn) (handled : α) : Except PyExn α :=
  match e with
  | .osError => .ok handled
  | e => .error e

/-! ## Filename and URL construction (src/satref2rinex.py, lines 38-64)

`base_url.format(...)` is template splicing: the literal segments of the
template with each `{field}` replaced by the corresponding value; it is
embedded as the concatenation of those segments.  The file names are:
`gz_file_name` (the `.crx.gz` download target), `rnx_file_name` =
`gz_file_name.replace('.gz', '')` (the gunzipped `.crx` file; `.gz` occurs
exactly once, at the end), and `rnx_converted_file_path` =
`rnx_file_path.with_suffix('.rnx')` (the final `.rnx` artifact, the last
suffix `.crx` replaced). -/

def fileStem (station : String) (year doy : Int) : String :=
  pyUpper station ++ "00HKG_R_" ++ Int.repr year ++ formatDoy3 doy ++ "0000_01D_30S_MO"

def gzFileName (station : String) (year doy : Int) : String :=
  fileStem station year doy ++ ".crx.gz"

def crxFileName (station : String) (year doy : Int) : String :=
  fileStem station year doy ++ ".crx"

def rnxFileName (station : String) (year doy : Int) : String :=
  fileStem station year doy ++ ".rnx"

/-- `output_dir / name` for a `pathlib.Path` output directory. -/
def joinPath (dir name : String) : String := dir ++ "/" ++ name

def gzPath (outDir station : String) (year doy : Int) : String :=
  joinPath outDir (gzFileName station year doy)

def crxPath (outDir station : String) (year doy : Int) : String :=
  joinPath outDir (crxFileName station year doy)

def rnxPath (outDir station : String) (year doy : Int) : String :=
  joinPath outDir (rnxFileName station year doy)

/-- The URL requested for one day (`base_url.format(year=year,
doy=doy_formatted, stationL=station_id.lower(), stationU=station_id.upper())`). -/
def constructUrl (year doy : Int) (stationId : String) : String :=
  "https://rinex.geodetic.gov.hk/rinex3/" ++ Int.repr year ++ "/" ++ formatDoy3 doy ++
    "/" ++ pyLower stationId ++ "/30s/" ++ pyUpper stationId ++ "00HKG_R_" ++
    Int.repr year ++ formatDoy3 doy ++ "0000_01D_30S_MO.crx.gz"

/-! ## Remote fetch pipeline (src/satref2rinex.py) -/

/-- Outcome of `requests.get(url, stream=True)` followed by
`raise_for_status()` and the streaming write of the body:
`httpError` = non-success status (raised before the `.crx.gz` file is
opened), `streamError` = a failure while streaming chunks to disk (the
file was already created), `ok` = body fully written. -/
inductive DownloadOutcome where
  | httpError
  | streamError
  | ok
deriving DecidableEq

/-- Outcome of `hatanaka.decompress_on_disk`: it may raise, produce the
sibling `.rnx` file as contracted, or return without producing it (the
code checks for this case and prints an error without raising). -/
inductive HatanakaOutcome where
  | raises
  | producesRnx
  | noOutput
deriving DecidableEq

/-- The behaviour of every external collaborator during one day of the
fetch pipeline. -/
structure FetchDayOracle where
  download : DownloadOutcome
  gunzipOk : Bool
  hatanaka : HatanakaOutcome
  removeGzOk : Bool
  removeCrxOk : Bool
deriving DecidableEq

/-- State after the `try` block of one day: the filesystem, whether the
idempotent skip was taken, whether `requests.get` was issued, and the
exception that escaped the block, if any. -/
structure FetchBodyResult where
  fs : FS
  skipped : Bool
  netCall : Bool
  exn : Option PyExn
deriving DecidableEq

/-- The `try` block of one day of `satref2rinex` (lines 68-101): skip check,
download, gunzip, Hatanaka conversion.  A `some` in the last component is
an exception leaving the block (to be caught by the `except` clauses). -/
def fetchDayBody (o : FetchDayOracle) (gzP crxP rnxP : String) (fs : FS) :
    FetchBodyResult :=
  if rnxP ∈ fs then
    ⟨fs, true, false, none⟩
  else
    match o.download with
    | .httpError => ⟨fs, false, true, some .requestException⟩
    | .streamError => ⟨createFile gzP fs, false, true, some .osError⟩
    | .ok =>
      let fs1 := createFile gzP fs
      let fs2 := createFile crxP fs1
      if o.gunzipOk then
        match o.hatanaka with
        | .raises => ⟨fs2, false, true, some .hatanakaError⟩
        | .producesRnx => ⟨createFile rnxP fs2, false, true, none⟩
        | .noOutput => ⟨fs2, false, true, none⟩
      else ⟨fs2, false, true, some .gzipError⟩

/-- Observable per-day record of the fetch pipeline: whether the day was
skipped, whether a network request was issued, whether a per-day error was
caught and reported, which intermediate files the cleanup actually removed,
and whether a deletion failure was reported. -/
structure FetchDayLog where
  skipped : Bool
  netCall : Bool
  dayErrorReported : Bool
  deleted : List String
  deleteErrorReported : Bool
deriving DecidableEq

/-- The `finally` block of one day (lines 105-113): if the final `.rnx`
file exists, delete the `.crx.gz` and `.crx` intermediates inside a
`try ... except OSError` (a failure on the first `os.remove` skips the
second).  Returns the filesystem, the paths removed, and whether a
deletion error was reported. -/
def fetchCleanup (o : FetchDayOracle) (gzP crxP rnxP : String) (fs : FS) :
    Except PyExn (FS × List String × Bool) :=
  if rnxP ∈ fs then
    match removeAttempt o.removeGzOk gzP fs with
    | .ok fs1 =>
      match removeAttempt o.removeCrxOk crxP fs1 with
      | .ok fs2 => .ok (fs2, [gzP, crxP], false)
      | .error e => catchOSError e (fs1, [gzP], true)
    | .error e => catchOSError e (fs, [], true)
  else .ok (fs, [], false)

/-- One full day of the fetch pipeline: the `try` block, the two `except`
clauses (`except requests.exceptions.RequestException` and
`except Exception`, which together catch and report every exception the
block can raise), then the `finally` cleanup gate.  An `Except.error`
models an exception escaping into the `for` loop. -/
def processFetchDay (o : FetchDayOracle) (gzP crxP rnxP : String) (fs : FS) :
    Except PyExn (FS × FetchDayLog) :=
  let r := fetchDayBody o gzP crxP rnxP fs
  match fetchCleanup o gzP crxP rnxP r.fs with
  | .ok (fs2, deleted, delErr) =>
    .ok (fs2, ⟨r.skipped, r.netCall, r.exn.isSome, deleted, delErr⟩)
  | .error e => .error e

/-- The `for doy in range(doy_start, doy_end + 1)` loop of `satref2rinex`,
accumulating the filesystem and the per-day logs. -/
def satrefLoop (year : Int) (station outDir : String) (o : Int → FetchDayOracle)
    (days : List Int) (acc : FS × List FetchDayLog) :
    Except PyExn (FS × List FetchDayLog) :=
  match days with
  | [] => .ok acc
  | doy :: rest =>
    match processFetchDay (o doy) (gzPath outDir station year doy)
        (crxPath outDir station year doy) (rnxPath outDir station year doy) acc.1 with
    | .ok (fs', log) => satrefLoop year station outDir o rest (fs', acc.2 ++ [log])
    | .error e => .error e

/-- The fetch pipeline `satref2rinex(year, doy_start, doy_end, station_id,
output_directory)`.  A `none` output directory resolves to
`downloaded_rinex_files/{year}`.  Directory creation (`mkdir`) is not part
of the file-set model. -/
def satref2rinex (year doyStart doyEnd : Int) (stationId : String)
    (outputDirectory : Option String) (o : Int → FetchDayOracle) (fs : FS) :
    Except PyExn (FS × List FetchDayLog) :=
  let outDir := outputDirectory.getD ("downloaded_rinex_files/" ++ Int.repr year)
  satrefLoop year stationId outDir o (dayRange doyStart doyEnd) (fs, [])

/-! ## Local conversion pipeline (src/rinex_convert.py) -/

/-- The expected input path,
`os.path.join(input_folder, f"{station_name}00HKG_R_{year}{doy_str}0000_01D_30S_MO.rnx")`
(line 53); the station name is used as given, not upper-cased. -/
def convInputFile (inputFolder station : String) (year : Int) (doyStr : String) : String :=
  inputFolder ++ "/" ++ station ++ "00HKG_R_" ++ Int.repr year ++ doyStr ++
    "0000_01D_30S_MO.rnx"

/-- The output path,
`os.path.join(output_folder, f"{station_name.lower()}{doy_str}0.{year_short}o")`
(line 58), where `year_short = str(year % 100)`. -/
def convOutputFile (outputFolder station : String) (doyStr : String) (year : Int) : String :=
  outputFolder ++ "/" ++ pyLower station ++ doyStr ++ "0." ++ yearShort year ++ "o"

/-- Observable per-day record of the conversion pipeline. -/
structure ConvDayLog where
  skipped : Bool
  toolInvoked : Bool
  toolFailed : Bool
deriving DecidableEq

/-- `subprocess.run(command, check=True)`: raises
`subprocess.CalledProcessError` exactly when the tool exits non-zero
(the interface the code relies on). -/
def subprocessRun (exitCode : Nat) : Except PyExn Unit :=
  if exitCode = 0 then .ok () else .error .calledProcessError

/-- One day of `rinex_convert` (lines 56-75): existence check on the input
file, then the tool invocation guarded by
`except subprocess.CalledProcessError` (any other exception would escape
into the loop); the output file appears on success. -/
def processConvDay (exitCode : Nat) (inputFile outputFile : String) (fs : FS) :
    Except PyExn (FS × ConvDayLog) :=
  if inputFile ∈ fs then
    match subprocessRun exitCode with
    | .ok _ => .ok (createFile outputFile fs, ⟨false, true, false⟩)
    | .error .calledProcessError => .ok (fs, ⟨false, true, true⟩)
    | .error e => .error e
  else
    .ok (fs, ⟨true, false, false⟩)

/-- The `for` loop of `rinex_convert`. -/
def convLoop (inputFolder station outDir : String) (year : Int)
    (exitCodes : Int → Nat) (days : List Int) (acc : FS × List ConvDayLog) :
    Except PyExn (FS × List ConvDayLog) :=
  match days with
  | [] => .ok acc
  | doy :: rest =>
    match processConvDay (exitCodes doy)
        (convInputFile inputFolder station year (formatDoy3 doy))
        (convOutputFile outDir station (formatDoy3 doy) year) acc.1 with
    | .ok (fs', log) => convLoop inputFolder station outDir year exitCodes rest
        (fs', acc.2 ++ [log])
    | .error e => .error e

/-- The conversion pipeline `rinex_convert(input_folder, gfzrnx_exe,
doy_start, doy_end, station_name, year, output_folder)`.  The executable
existence check (`if not os.path.exists(gfzrnx_exe): raise
FileNotFoundError(...)`, lines 39-40) runs once, before the loop; a `none`
output folder resolves to the current working directory `cwd`. -/
def rinex_convert (inputFolder gfzrnxExe : String) (doyStart doyEnd : Int)
    (stationName : String) (year : Int) (outputFolder : Option String)
    (cwd : String) (exitCodes : Int → Nat) (fs : FS) :
    Except PyExn (FS × List ConvDayLog) :=
  if gfzrnxExe ∈ fs then
    convLoop inputFolder stationName (outputFolder.getD cwd) year exitCodes
      (dayRange doyStart doyEnd) (fs, [])
  else .error .fileNotFoundError

/-! ## Spec-side definitions

These definitions follow the wording of the specification (not the code);
the theorems below compare the code-derived definitions against them. -/

/-- A decimal digit, for stating that a formatted day-of-year string is a
zero-padded run of digits. -/
def isDigitChar (c : Char) : Bool := decide (48 ≤ c.toNat ∧ c.toNat ≤ 57)

/-- The numeric value of a string of decimal digits (most significant
first), for stating that zero-padding preserves the rendered value. -/
def decimalValue (l : List Char) : Nat :=
  l.foldl (fun a c => 10 * a + (c.toNat - 48)) 0

/-- The spec's URL template, following its words: segments
`rinex3/{year}/{doy:3digits}/{station_lower}/30s/`, then the file
`{STATION_UPPER}00HKG_R_{year}{doy:3digits}0000_01D_30S_MO.crx.gz`, with
the day-of-year rendered as its decimal digits left-padded with zeros to
width 3. -/
def specUrlTemplate (year doy : Int) (stationId : String) : String :=
  "https://rinex.geodetic.gov.hk/rinex3/" ++ Int.repr year ++ "/" ++
    zeroPad 3 (Nat.repr doy.toNat) ++ "/" ++ pyLower stationId ++ "/30s/" ++
    pyUpper stationId ++ "00HKG_R_" ++ Int.repr year ++ zeroPad 3 (Nat.repr doy.toNat) ++
    "0000_01D_30S_MO.crx.gz"

/-! ## Helper lemmas -/

theorem char_toNat_inj {c₁ c₂ : Char} (h : c₁.toNat = c₂.toNat) : c₁ = c₂ :=
  Char.ext (UInt32.toNat.inj h)

theorem char_toNat_ofNat {n : Nat} (h : n ≤ 122) : (Char.ofNat n).toNat = n := by
  interval_cases n <;> decide

theorem upperChar_congr {c₁ c₂ : Char} (h : lowerChar c₁ = lowerChar c₂) :
    upperChar c₁ = upperChar c₂ := by
  unfold lowerChar at h
  by_cases h₁ : 65 ≤ c₁.toNat ∧ c₁.toNat ≤ 90 <;>
    by_cases h₂ : 65 ≤ c₂.toNat ∧ c₂.toNat ≤ 90
  · rw [if_pos h₁, if_pos h₂] at h
    have h3 := congrArg Char.toNat h
    rw [char_toNat_ofNat (by omega), char_toNat_ofNat (by omega)] at h3
    rw [char_toNat_inj (show c₁.toNat = c₂.toNat by omega)]
  · rw [if_pos h₁, if_neg h₂] at h
    have h3 := congrArg Char.toNat h
    rw [char_toNat_ofNat (by omega)] at h3
    unfold upperChar
    rw [if_neg (by omega), if_pos (by omega)]
    exact char_toNat_inj (by rw [char_toNat_ofNat (by omega)]; omega)
  · rw [if_neg h₁, if_pos h₂] at h
    have h3 := congrArg Char.toNat h
    rw [char_toNat_ofNat (by omega)] at h3
    unfold upperChar
    rw [if_pos (by omega), if_neg (by omega)]
    exact char_toNat_inj (by rw [char_toNat_ofNat (by omega)]; omega)
  · rw [if_neg h₁, if_neg h₂] at h
    rw [h]

theorem map_upperChar_congr : ∀ (l₁ l₂ : List Char),
    l₁.map lowerChar = l₂.map lowerChar → l₁.map upperChar = l₂.map upperChar
  | [], [], _ => rfl
  | [], _ :: _, h => by simp at h
  | _ :: _, [], h => by simp at h
  | a :: l₁, b :: l₂, h => by
    simp only [List.map_cons, List.cons.injEq] at h ⊢
    exact ⟨upperChar_congr h.1, map_upperChar_congr l₁ l₂ h.2⟩

theorem pyUpper_congr {s₁ s₂ : String} (h : pyLower s₁ = pyLower s₂) :
    pyUpper s₁ = pyUpper s₂ := by
  have hd : s₁.data.map lowerChar = s₂.data.map lowerChar := congrArg String.data h
  unfold pyUpper
  rw [map_upperChar_congr _ _ hd]

theorem append_crx_ne_append_rnx (s t : String) : s ++ ".crx" ≠ t ++ ".rnx" := by
  intro h
  have h2 : (s ++ ".crx").data.reverse = (t ++ ".rnx").data.reverse := by rw [h]
  rw [String.data_append, String.data_append,
    show (".crx" : String).data = ['.', 'c', 'r', 'x'] from rfl,
    show (".rnx" : String).data = ['.', 'r', 'n', 'x'] from rfl] at h2
  simp [List.reverse_append] at h2

theorem append_gz_ne_append_rnx (s t : String) : s ++ ".crx.gz" ≠ t ++ ".rnx" := by
  intro h
  have h2 : (s ++ ".crx.gz").data.reverse = (t ++ ".rnx").data.reverse := by rw [h]
  rw [String.data_append, String.data_append,
    show (".crx.gz" : String).data = ['.', 'c', 'r', 'x', '.', 'g', 'z'] from rfl,
    show (".rnx" : String).data = ['.', 'r', 'n', 'x'] from rfl] at h2
  simp [List.reverse_append] at h2

theorem crxPath_ne_rnxPath (o₁ s₁ : String) (y₁ d₁ : Int) (o₂ s₂ : String) (y₂ d₂ : Int) :
    crxPath o₁ s₁ y₁ d₁ ≠ rnxPath o₂ s₂ y₂ d₂ := by
  simp only [crxPath, rnxPath, joinPath, crxFileName, rnxFileName, ← String.append_assoc]
  exact append_crx_ne_append_rnx _ _

theorem gzPath_ne_rnxPath (o₁ s₁ : String) (y₁ d₁ : Int) (o₂ s₂ : String) (y₂ d₂ : Int) :
    gzPath o₁ s₁ y₁ d₁ ≠ rnxPath o₂ s₂ y₂ d₂ := by
  simp only [gzPath, rnxPath, joinPath, gzFileName, rnxFileName, ← String.append_assoc]
  exact append_gz_ne_append_rnx _ _

theorem mem_dayRange {a b x : Int} : x ∈ dayRange a b ↔ a ≤ x ∧ x ≤ b := by
  simp only [dayRange, List.mem_map, List.mem_range]
  constructor
  · rintro ⟨i, hi, rfl⟩
    omega
  · rintro ⟨h1, h2⟩
    exact ⟨(x - a).toNat, by omega, by omega⟩

theorem dayRange_pairwise (a b : Int) : List.Pairwise (· < ·) (dayRange a b) := by
  unfold dayRange
  rw [List.pairwise_map]
  exact (List.pairwise_lt_range _).imp (fun h => by omega)

theorem dayRange_eq_nil {a b : Int} (h : b < a) : dayRange a b = [] := by
  unfold dayRange
  rw [show (b + 1 - a).toNat = 0 by omega]
  rfl

theorem append_crx_ne_append_gz (s t : String) : s ++ ".crx" ≠ t ++ ".crx.gz" := by
  intro h
  have h2 : (s ++ ".crx").data.reverse = (t ++ ".crx.gz").data.reverse := by rw [h]
  rw [String.data_append, String.data_append,
    show (".crx" : String).data = ['.', 'c', 'r', 'x'] from rfl,
    show (".crx.gz" : String).data = ['.', 'c', 'r', 'x', '.', 'g', 'z'] from rfl] at h2
  simp [List.reverse_append] at h2

theorem crxPath_ne_gzPath (o₁ s₁ : String) (y₁ d₁ : Int) (o₂ s₂ : String) (y₂ d₂ : Int) :
    crxPath o₁ s₁ y₁ d₁ ≠ gzPath o₂ s₂ y₂ d₂ := by
  simp only [crxPath, gzPath, joinPath, crxFileName, gzFileName, ← String.append_assoc]
  exact append_crx_ne_append_gz _ _

theorem fetchCleanup_isOk (o : FetchDayOracle) (gzP crxP rnxP : String) (fs : FS) :
    ∃ v, fetchCleanup o gzP crxP rnxP fs = .ok v := by
  unfold fetchCleanup removeAttempt catchOSError
  by_cases h : rnxP ∈ fs
  · by_cases h1 : gzP ∈ fs ∧ o.removeGzOk = true
    · by_cases h2 : crxP ∈ fs.erase gzP ∧ o.removeCrxOk = true
      · simp only [Finset.mem_erase] at h2
        simp [h, h1, h2]
      · simp only [Finset.mem_erase] at h2
        simp [h, h1, h2]
    · simp [h, h1]
  · simp [h]

theorem processFetchDay_isOk (o : FetchDayOracle) (gzP crxP rnxP : String) (fs : FS) :
    ∃ out, processFetchDay o gzP crxP rnxP fs = .ok out := by
  obtain ⟨⟨fs2, del, derr⟩, hv⟩ :=
    fetchCleanup_isOk o gzP crxP rnxP (fetchDayBody o gzP crxP rnxP fs).fs
  refine ⟨((fs2, ⟨(fetchDayBody o gzP crxP rnxP fs).skipped,
    (fetchDayBody o gzP crxP rnxP fs).netCall,
    (fetchDayBody o gzP crxP rnxP fs).exn.isSome, del, derr⟩) : FS × FetchDayLog), ?_⟩
  simp only [processFetchDay]
  rw [hv]

theorem satrefLoop_isOk (year : Int) (station outDir : String) (o : Int → FetchDayOracle) :
    ∀ (days : List Int) (fs : FS) (acc : List FetchDayLog),
      ∃ fs' logs, satrefLoop year station outDir o days (fs, acc) = .ok (fs', logs) ∧
        logs.length = acc.length + days.length
  | [], fs, acc => ⟨fs, acc, rfl, by simp⟩
  | d :: rest, fs, acc => by
    obtain ⟨⟨fs1, log⟩, hpd⟩ := processFetchDay_isOk (o d)
      (gzPath outDir station year d) (crxPath outDir station year d)
      (rnxPath outDir station year d) fs
    obtain ⟨fs', logs, hl, hlen⟩ := satrefLoop_isOk year station outDir o rest fs1 (acc ++ [log])
    refine ⟨fs', logs, ?_, ?_⟩
    · simp only [satrefLoop]
      rw [hpd]
      exact hl
    · simp only [List.length_append, List.length_cons, List.length_nil] at hlen ⊢
      omega

theorem processConvDay_isOk (exitCode : Nat) (inputFile outputFile : String) (fs : FS) :
    ∃ out, processConvDay exitCode inputFile outputFile fs = .ok out := by
  unfold processConvDay subprocessRun
  by_cases h : inputFile ∈ fs
  · by_cases h0 : exitCode = 0
    · simp [h, h0]
    · simp [h, h0]
  · simp [h]

theorem convLoop_isOk (inputFolder station outDir : String) (year : Int) (exitCodes : Int → Nat) :
    ∀ (days : List Int) (fs : FS) (acc : List ConvDayLog),
      ∃ fs' logs, convLoop inputFolder station outDir year exitCodes days (fs, acc) = .ok (fs', logs) ∧
        logs.length = acc.length + days.length
  | [], fs, acc => ⟨fs, acc, rfl, by simp⟩
  | d :: rest, fs, acc => by
    obtain ⟨⟨fs1, log⟩, hpd⟩ := processConvDay_isOk (exitCodes d)
      (convInputFile inputFolder station year (formatDoy3 d))
      (convOutputFile outDir station (formatDoy3 d) year) fs
    obtain ⟨fs', logs, hl, hlen⟩ :=
      convLoop_isOk inputFolder station outDir year exitCodes rest fs1 (acc ++ [log])
    refine ⟨fs', logs, ?_, ?_⟩
    · simp only [convLoop]
      rw [hpd]
      exact hl
    · simp only [List.length_append, List.length_cons, List.length_nil] at hlen ⊢
      omega

theorem processFetchDay_skip (o : FetchDayOracle) (gzP crxP rnxP : String) (fs : FS)
    (hrnx : rnxP ∈ fs) :
    ∃ fs' log, processFetchDay o gzP crxP rnxP fs = .ok (fs', log) ∧
      log.netCall = false ∧ log.skipped = true ∧
      (∀ q ∈ fs, q ≠ gzP → q ≠ crxP → q ∈ fs') ∧
      (gzP ∉ fs → fs' = fs) := by
  simp only [processFetchDay, fetchDayBody, if_pos hrnx]
  by_cases h1 : gzP ∈ fs ∧ o.removeGzOk = true
  · by_cases h2 : crxP ∈ fs.erase gzP ∧ o.removeCrxOk = true
    · refine ⟨(fs.erase gzP).erase crxP, ⟨true, false, false, [gzP, crxP], false⟩, ?_, rfl, rfl,
        ?_, ?_⟩
      · have h2' := h2
        simp only [Finset.mem_erase] at h2'
        simp [fetchCleanup, removeAttempt, hrnx, h1, h2']
      · intro q hq hqg hqc
        exact Finset.mem_erase.mpr ⟨hqc, Finset.mem_erase.mpr ⟨hqg, hq⟩⟩
      · intro hgz
        exact absurd h1.1 hgz
    · refine ⟨fs.erase gzP, ⟨true, false, false, [gzP], true⟩, ?_, rfl, rfl, ?_, ?_⟩
      · have h2' := h2
        simp only [Finset.mem_erase] at h2'
        simp [fetchCleanup, removeAttempt, catchOSError, hrnx, h1, h2']
      · intro q hq hqg _
        exact Finset.mem_erase.mpr ⟨hqg, hq⟩
      · intro hgz
        exact absurd h1.1 hgz
  · refine ⟨fs, ⟨true, false, false, [], true⟩, ?_, rfl, rfl, fun q hq _ _ => hq, fun _ => rfl⟩
    simp [fetchCleanup, removeAttempt, catchOSError, hrnx, h1]

theorem processFetchDay_cleanup_spec (o : FetchDayOracle) (gzP crxP rnxP : String) (fs : FS)
    (hg : gzP ≠ rnxP) (hc : crxP ≠ rnxP) :
    ∃ fs' log, processFetchDay o gzP crxP rnxP fs = .ok (fs', log) ∧
      (rnxP ∉ fs' → log.deleted = []) ∧
      (rnxP ∈ fs' → (gzP ∉ fs' ∧ crxP ∉ fs') ∨ log.deleteErrorReported = true) := by
  simp only [processFetchDay]
  by_cases hrb : rnxP ∈ (fetchDayBody o gzP crxP rnxP fs).fs
  · by_cases h1 : gzP ∈ (fetchDayBody o gzP crxP rnxP fs).fs ∧ o.removeGzOk = true
    · by_cases h2 : crxP ∈ ((fetchDayBody o gzP crxP rnxP fs).fs).erase gzP ∧ o.removeCrxOk = true
      · refine ⟨(((fetchDayBody o gzP crxP rnxP fs).fs).erase gzP).erase crxP,
          ⟨(fetchDayBody o gzP crxP rnxP fs).skipped, (fetchDayBody o gzP crxP rnxP fs).netCall, (fetchDayBody o gzP crxP rnxP fs).exn.isSome, [gzP, crxP], false⟩, ?_, ?_, ?_⟩
        · have h2' := h2
          simp only [Finset.mem_erase] at h2'
          simp [fetchCleanup, removeAttempt, hrb, h1, h2']
        · intro hnot
          exact absurd (Finset.mem_erase.mpr ⟨hc.symm, Finset.mem_erase.mpr ⟨hg.symm, hrb⟩⟩) hnot
        · intro _
          left
          constructor
          · intro hmem
            exact absurd (Finset.mem_erase.mp (Finset.mem_erase.mp hmem).2).1 (by simp)
          · intro hmem
            exact absurd (Finset.mem_erase.mp hmem).1 (by simp)
      · refine ⟨((fetchDayBody o gzP crxP rnxP fs).fs).erase gzP,
          ⟨(fetchDayBody o gzP crxP rnxP fs).skipped, (fetchDayBody o gzP crxP rnxP fs).netCall, (fetchDayBody o gzP crxP rnxP fs).exn.isSome, [gzP], true⟩, ?_, ?_, fun _ => Or.inr rfl⟩
        · have h2' := h2
          simp only [Finset.mem_erase] at h2'
          simp [fetchCleanup, removeAttempt, catchOSError, hrb, h1, h2']
        · intro hnot
          exact absurd (Finset.mem_erase.mpr ⟨hg.symm, hrb⟩) hnot
    · refine ⟨(fetchDayBody o gzP crxP rnxP fs).fs, ⟨(fetchDayBody o gzP crxP rnxP fs).skipped, (fetchDayBody o gzP crxP rnxP fs).netCall, (fetchDayBody o gzP crxP rnxP fs).exn.isSome, [], true⟩, ?_,
        fun _ => rfl, fun _ => Or.inr rfl⟩
      simp [fetchCleanup, removeAttempt, catchOSError, hrb, h1]
  · refine ⟨(fetchDayBody o gzP crxP rnxP fs).fs, ⟨(fetchDayBody o gzP crxP rnxP fs).skipped, (fetchDayBody o gzP crxP rnxP fs).netCall, (fetchDayBody o gzP crxP rnxP fs).exn.isSome, [], false⟩, ?_, fun _ => rfl, ?_⟩
    · simp [fetchCleanup, hrb]
    · intro hmem
      exact absurd hmem hrb

theorem satrefLoop_skip_nonet (year : Int) (station outDir : String) (o : Int → FetchDayOracle) :
    ∀ (days : List Int) (fs : FS) (acc : List FetchDayLog),
      (∀ d ∈ days, rnxPath outDir station year d ∈ fs) →
      ∃ fs' logs2, satrefLoop year station outDir o days (fs, acc) = .ok (fs', acc ++ logs2) ∧
        ∀ l ∈ logs2, l.netCall = false
  | [], fs, acc, _ => ⟨fs, [], by simp [satrefLoop], by simp⟩
  | d :: rest, fs, acc, h => by
    obtain ⟨fs1, log, hpd, hnet, _, hpres, _⟩ :=
      processFetchDay_skip (o d) (gzPath outDir station year d) (crxPath outDir station year d)
        (rnxPath outDir station year d) fs (h d (by simp))
    have hrest : ∀ d' ∈ rest, rnxPath outDir station year d' ∈ fs1 := by
      intro d' hd'
      exact hpres _ (h d' (by simp [hd']))
        (gzPath_ne_rnxPath outDir station year d outDir station year d').symm
        (crxPath_ne_rnxPath outDir station year d outDir station year d').symm
    obtain ⟨fs', logs2, hl, hn⟩ :=
      satrefLoop_skip_nonet year station outDir o rest fs1 (acc ++ [log]) hrest
    refine ⟨fs', log :: logs2, ?_, ?_⟩
    · simp only [satrefLoop]
      rw [hpd]
      show satrefLoop year station outDir o rest (fs1, acc ++ [log]) = _
      rw [hl]
      simp
    · intro l hl'
      rcases List.mem_cons.mp hl' with rfl | hmem
      · exact hnet
      · exact hn l hmem

theorem satrefLoop_skip_frozen (year : Int) (station outDir : String) (o : Int → FetchDayOracle) :
    ∀ (days : List Int) (fs : FS) (acc : List FetchDayLog),
      (∀ d ∈ days, rnxPath outDir station year d ∈ fs) →
      (∀ d ∈ days, gzPath outDir station year d ∉ fs) →
      ∃ logs2, satrefLoop year station outDir o days (fs, acc) = .ok (fs, acc ++ logs2)
  | [], fs, acc, _, _ => ⟨[], by simp [satrefLoop]⟩
  | d :: rest, fs, acc, h, hg => by
    obtain ⟨fs1, log, hpd, _, _, _, hfrozen⟩ :=
      processFetchDay_skip (o d) (gzPath outDir station year d) (crxPath outDir station year d)
        (rnxPath outDir station year d) fs (h d (by simp))
    have hfs1 : fs1 = fs := hfrozen (hg d (by simp))
    subst hfs1
    obtain ⟨logs2, hl⟩ := satrefLoop_skip_frozen year station outDir o rest fs1 (acc ++ [log])
      (fun d' hd' => h d' (by simp [hd'])) (fun d' hd' => hg d' (by simp [hd']))
    refine ⟨log :: logs2, ?_⟩
    simp only [satrefLoop]
    rw [hpd]
    show satrefLoop year station outDir o rest (fs1, acc ++ [log]) = _
    rw [hl]
    simp

set_option maxRecDepth 10000 in
theorem pad3_spec : ∀ n : Fin 1000,
    (zeroPad 3 (Nat.repr n.val)).length = 3 ∧
    (zeroPad 3 (Nat.repr n.val)).data.all isDigitChar = true ∧
    decimalValue (zeroPad 3 (Nat.repr n.val)).data = n.val := by
  decide

theorem reprLen_lt100 : ∀ m : Fin 100,
    (10 ≤ m.val → (Nat.repr m.val).length = 2) ∧
    (m.val < 10 → (Nat.repr m.val).length = 1) := by
  decide

theorem reprLen_of_lt100 {m : Nat} (h : m < 100) :
    (10 ≤ m → (Nat.repr m).length = 2) ∧ (m < 10 → (Nat.repr m).length = 1) :=
  reprLen_lt100 ⟨m, h⟩

theorem satrefLoop_station_congr (year : Int) (s₁ s₂ outDir : String)
    (o : Int → FetchDayOracle) (hU : pyUpper s₁ = pyUpper s₂) :
    ∀ (days : List Int) (acc : FS × List FetchDayLog),
      satrefLoop year s₁ outDir o days acc = satrefLoop year s₂ outDir o days acc
  | [], _ => rfl
  | d :: rest, acc => by
    have hg : gzPath outDir s₁ year d = gzPath outDir s₂ year d := by
      simp [gzPath, joinPath, gzFileName, fileStem, hU]
    have hc : crxPath outDir s₁ year d = crxPath outDir s₂ year d := by
      simp [crxPath, joinPath, crxFileName, fileStem, hU]
    have hr : rnxPath outDir s₁ year d = rnxPath outDir s₂ year d := by
      simp [rnxPath, joinPath, rnxFileName, fileStem, hU]
    simp only [satrefLoop, hg, hc, hr]
    cases hpd : processFetchDay (o d) (gzPath outDir s₂ year d) (crxPath outDir s₂ year d)
        (rnxPath outDir s₂ year d) acc.1 with
    | ok v =>
      obtain ⟨fs', log⟩ := v
      exact satrefLoop_station_congr year s₁ s₂ outDir o hU rest (fs', acc.2 ++ [log])
    | error e => rfl

/-! ## Claims -/

/-- C1 (amended): after one day of the fetch pipeline no exception escapes
the day (the run returns normally), and exactly one of two states holds:
if the final `.rnx` file is absent, the cleanup gate deleted nothing; if
it is present, either both intermediates (`.crx.gz` and `.crx`) are absent
from the filesystem, or a deletion failure was caught and reported. -/
theorem fetch_day_cleanup_gate (o : FetchDayOracle) (outDir station : String)
    (year doy : Int) (fs : FS) :
    ∃ fs' log, processFetchDay o (gzPath outDir station year doy)
        (crxPath outDir station year doy) (rnxPath outDir station year doy) fs =
        .ok (fs', log) ∧
      (rnxPath outDir station year doy ∉ fs' → log.deleted = []) ∧
      (rnxPath outDir station year doy ∈ fs' →
        (gzPath outDir station year doy ∉ fs' ∧ crxPath outDir station year doy ∉ fs') ∨
          log.deleteErrorReported = true) :=
  processFetchDay_cleanup_spec o _ _ _ fs
    (gzPath_ne_rnxPath outDir station year doy outDir station year doy)
    (crxPath_ne_rnxPath outDir station year doy outDir station year doy)

/-- Witness for C1: the amended cleanup-gate dichotomy evaluated on a
concrete failing-download day. -/
theorem fetch_day_cleanup_gate_witness :
    ∃ fs' log, processFetchDay ⟨.httpError, true, .raises, true, true⟩
        (gzPath "out" "HKST" 2023 1) (crxPath "out" "HKST" 2023 1)
        (rnxPath "out" "HKST" 2023 1) ∅ = .ok (fs', log) ∧
      (rnxPath "out" "HKST" 2023 1 ∉ fs' → log.deleted = []) ∧
      (rnxPath "out" "HKST" 2023 1 ∈ fs' →
        (gzPath "out" "HKST" 2023 1 ∉ fs' ∧ crxPath "out" "HKST" 2023 1 ∉ fs') ∨
          log.deleteErrorReported = true) :=
  fetch_day_cleanup_gate ⟨.httpError, true, .raises, true, true⟩ "out" "HKST" 2023 1 ∅

/-- Counterexample to C1 as stated: on a day whose pipeline succeeds but
whose `.crx.gz` deletion fails (caught and reported), the final `.rnx`
file exists while both intermediates are still on disk and nothing was
deleted, so neither branch of the claimed dichotomy holds. -/
theorem fetch_day_cleanup_claim_counterexample :
    processFetchDay ⟨.ok, true, .producesRnx, false, true⟩
        (gzPath "out" "HKST" 2023 100) (crxPath "out" "HKST" 2023 100)
        (rnxPath "out" "HKST" 2023 100) ∅ =
      .ok (createFile (rnxPath "out" "HKST" 2023 100)
            (createFile (crxPath "out" "HKST" 2023 100)
              (createFile (gzPath "out" "HKST" 2023 100) (∅ : FS))),
          ⟨false, true, false, [], true⟩) ∧
    ¬((rnxPath "out" "HKST" 2023 100 ∈
          createFile (rnxPath "out" "HKST" 2023 100)
            (createFile (crxPath "out" "HKST" 2023 100)
              (createFile (gzPath "out" "HKST" 2023 100) (∅ : FS))) ∧
        gzPath "out" "HKST" 2023 100 ∉
          createFile (rnxPath "out" "HKST" 2023 100)
            (createFile (crxPath "out" "HKST" 2023 100)
              (createFile (gzPath "out" "HKST" 2023 100) (∅ : FS))) ∧
        crxPath "out" "HKST" 2023 100 ∉
          createFile (rnxPath "out" "HKST" 2023 100)
            (createFile (crxPath "out" "HKST" 2023 100)
              (createFile (gzPath "out" "HKST" 2023 100) (∅ : FS)))) ∨
      (rnxPath "out" "HKST" 2023 100 ∉
          createFile (rnxPath "out" "HKST" 2023 100)
            (createFile (crxPath "out" "HKST" 2023 100)
              (createFile (gzPath "out" "HKST" 2023 100) (∅ : FS))) ∧
        FetchDayLog.deleted ⟨false, true, false, [], true⟩ = [])) :=
  ⟨rfl, by decide⟩

/-- C2: for a run over days that all already have their final `.rnx`
artifact, no day issues a network request; if additionally no intermediate
`.crx.gz`/`.crx` file of any day of the range is present (the state a
fully successful earlier run leaves behind), the filesystem is unchanged. -/
theorem satref2rinex_idempotent (year a b : Int) (station outDir : String)
    (o : Int → FetchDayOracle) (fs : FS)
    (hrnx : ∀ d ∈ dayRange a b, rnxPath outDir station year d ∈ fs) :
    ∃ fs' logs, satref2rinex year a b station (some outDir) o fs = .ok (fs', logs) ∧
      (∀ l ∈ logs, l.netCall = false) ∧
      ((∀ d ∈ dayRange a b, gzPath outDir station year d ∉ fs ∧
          crxPath outDir station year d ∉ fs) → fs' = fs) := by
  obtain ⟨fs', logs2, hl, hn⟩ :=
    satrefLoop_skip_nonet year station outDir o (dayRange a b) fs [] hrnx
  refine ⟨fs', logs2, ?_, hn, ?_⟩
  · simpa [satref2rinex] using hl
  · intro h2
    obtain ⟨logs2', hl'⟩ :=
      satrefLoop_skip_frozen year station outDir o (dayRange a b) fs [] hrnx
        (fun d hd => (h2 d hd).1)
    have heq := hl.symm.trans hl'
    simp only [Except.ok.injEq, Prod.mk.injEq] at heq
    exact heq.1

/-- Witness for C2: a one-day range whose final artifact is already the
only file on disk; the run makes no network call and changes nothing. -/
theorem satref2rinex_idempotent_witness :
    ∃ fs' logs, satref2rinex 2023 100 100 "HKST" (some "out")
        (fun _ => ⟨.ok, true, .producesRnx, true, true⟩)
        {rnxPath "out" "HKST" 2023 100} = .ok (fs', logs) ∧
      (∀ l ∈ logs, l.netCall = false) ∧
      ((∀ d ∈ dayRange 100 100, gzPath "out" "HKST" 2023 d ∉
          ({rnxPath "out" "HKST" 2023 100} : FS) ∧
          crxPath "out" "HKST" 2023 d ∉ ({rnxPath "out" "HKST" 2023 100} : FS)) →
        fs' = {rnxPath "out" "HKST" 2023 100}) :=
  satref2rinex_idempotent 2023 100 100 "HKST" "out"
    (fun _ => ⟨.ok, true, .producesRnx, true, true⟩)
    {rnxPath "out" "HKST" 2023 100} (by decide)

/-- C3: no per-day failure escapes the day-iteration boundary: for every
oracle the fetch pipeline returns normally with one log entry per day of
the range, and so does the conversion pipeline whenever its executable
pre-flight check passes. -/
theorem per_day_errors_contained (year a b : Int) (station : String) (od : Option String)
    (o : Int → FetchDayOracle) (fs : FS) (inputFolder gfzrnxExe stationName cwd : String)
    (a2 b2 year2 : Int) (outputFolder : Option String) (exitCodes : Int → Nat) (fs2 : FS) :
    (∃ fs' logs, satref2rinex year a b station od o fs = .ok (fs', logs) ∧
      logs.length = (dayRange a b).length) ∧
    (gfzrnxExe ∈ fs2 →
      ∃ fs' logs, rinex_convert inputFolder gfzrnxExe a2 b2 stationName year2 outputFolder
          cwd exitCodes fs2 = .ok (fs', logs) ∧ logs.length = (dayRange a2 b2).length) := by
  constructor
  · obtain ⟨fs', logs, hl, hlen⟩ := satrefLoop_isOk year station
      (od.getD ("downloaded_rinex_files/" ++ Int.repr year)) o (dayRange a b) fs []
    exact ⟨fs', logs, by simpa [satref2rinex] using hl, by simpa using hlen⟩
  · intro hexe
    obtain ⟨fs', logs, hl, hlen⟩ := convLoop_isOk inputFolder stationName
      (outputFolder.getD cwd) year2 exitCodes (dayRange a2 b2) fs2 []
    exact ⟨fs', logs, by simpa [rinex_convert, hexe] using hl, by simpa using hlen⟩

/-- Witness for C3: the conversion pipeline on a failing tool (exit code 1)
over a two-day range still returns normally with two log entries. -/
theorem per_day_errors_contained_witness :
    ∃ fs' logs, rinex_convert "in" "gfz" 5 6 "HKPC" 2023 none "cwd" (fun _ => 1)
        {"gfz", convInputFile "in" "HKPC" 2023 (formatDoy3 5)} = .ok (fs', logs) ∧
      logs.length = (dayRange 5 6).length :=
  (per_day_errors_contained 2023 1 2 "HKST" none
    (fun _ => ⟨.httpError, false, .raises, false, false⟩) ∅ "in" "gfz" "HKPC" "cwd"
    5 6 2023 none (fun _ => 1)
    {"gfz", convInputFile "in" "HKPC" 2023 (formatDoy3 5)}).2 (by decide)

/-- C4 (amended): the legacy output filename is
`{output_folder}/{station_lower}{doy}0.{yy}o` where `yy` is the decimal
rendering of `year % 100` without zero-padding: it has two digits exactly
when `year % 100 ≥ 10` and a single digit when `year % 100 < 10`. -/
theorem legacy_output_filename (outputFolder station doyStr : String) (year : Int) :
    convOutputFile outputFolder station doyStr year =
      outputFolder ++ "/" ++ pyLower station ++ doyStr ++ "0." ++
        Int.repr (year % 100) ++ "o" ∧
    (10 ≤ year % 100 → (yearShort year).length = 2) ∧
    (year % 100 < 10 → (yearShort year).length = 1) := by
  have h0 : 0 ≤ year % 100 := Int.emod_nonneg year (by norm_num)
  have h100 : year % 100 < 100 := Int.emod_lt_of_pos year (by norm_num)
  have hm : year % 100 = (((year % 100).toNat : Nat) : Int) := by omega
  have hrepr : yearShort year = Nat.repr (year % 100).toNat := by
    show Int.repr (year % 100) = Nat.repr (year % 100).toNat
    conv_lhs => rw [hm]
    rfl
  refine ⟨rfl, ?_, ?_⟩
  · intro h10
    rw [hrepr]
    exact (reprLen_of_lt100 (show (year % 100).toNat < 100 by omega)).1 (by omega)
  · intro h10
    rw [hrepr]
    exact (reprLen_of_lt100 (show (year % 100).toNat < 100 by omega)).2 (by omega)

/-- Witness for C4 (amended): for year 2023 the suffix is the two-digit
`23`. -/
theorem legacy_output_filename_witness :
    convOutputFile "out" "HKPC" "050" 2023 =
      "out" ++ "/" ++ pyLower "HKPC" ++ "050" ++ "0." ++ Int.repr (2023 % 100) ++ "o" ∧
    (yearShort 2023).length = 2 :=
  ⟨(legacy_output_filename "out" "HKPC" "050" 2023).1,
   (legacy_output_filename "out" "HKPC" "050" 2023).2.1 (by decide)⟩

/-- Counterexample to C4 as stated: for year 2005 the short-year suffix is
the single digit `5`, not the zero-padded `05` the claim requires, so the
filename is `out/hkpc0500.5o` and not `out/hkpc0500.05o`. -/
theorem legacy_suffix_claim_counterexample :
    convOutputFile "out" "HKPC" "050" 2005 = "out/hkpc0500.5o" ∧
    convOutputFile "out" "HKPC" "050" 2005 ≠ "out/hkpc0500.05o" ∧
    (yearShort 2005).length = 1 := by
  decide

/-- C5: a day of the conversion pipeline whose expected input file is
absent does not invoke the external tool, raises nothing, changes nothing,
and is recorded as skipped. -/
theorem conv_skip_missing_input (inputFolder station outDir : String) (year doy : Int)
    (exitCode : Nat) (fs : FS)
    (h : convInputFile inputFolder station year (formatDoy3 doy) ∉ fs) :
    processConvDay exitCode (convInputFile inputFolder station year (formatDoy3 doy))
      (convOutputFile outDir station (formatDoy3 doy) year) fs =
      .ok (fs, ⟨true, false, false⟩) := by
  simp [processConvDay, h]

/-- Witness for C5: day 50 of 2023 for station HKPC on an empty filesystem
is skipped without a tool invocation. -/
theorem conv_skip_missing_input_witness :
    processConvDay 0 (convInputFile "in" "HKPC" 2023 (formatDoy3 50))
      (convOutputFile "out" "HKPC" (formatDoy3 50) 2023) ∅ =
      .ok (∅, ⟨true, false, false⟩) :=
  conv_skip_missing_input "in" "HKPC" "out" 2023 50 0 ∅ (by decide)

/-- C6: when the conversion executable is absent, `rinex_convert` raises
`FileNotFoundError` before any day is processed — for every day range,
every oracle and every filesystem the result is that error and nothing
else (no output, no log entries). -/
theorem conv_tool_not_found (inputFolder gfzrnxExe : String) (a b : Int) (station : String)
    (year : Int) (outputFolder : Option String) (cwd : String) (exitCodes : Int → Nat)
    (fs : FS) (h : gfzrnxExe ∉ fs) :
    rinex_convert inputFolder gfzrnxExe a b station year outputFolder cwd exitCodes fs =
      .error .fileNotFoundError := by
  simp [rinex_convert, h]

/-- Witness for C6: with a present input file for day 5 but a missing
executable, the run is the pre-flight error. -/
theorem conv_tool_not_found_witness :
    rinex_convert "in" "gfz" 5 6 "HKPC" 2023 none "cwd" (fun _ => 0)
        {convInputFile "in" "HKPC" 2023 (formatDoy3 5)} = .error .fileNotFoundError :=
  conv_tool_not_found "in" "gfz" 5 6 "HKPC" 2023 none "cwd" (fun _ => 0)
    {convInputFile "in" "HKPC" 2023 (formatDoy3 5)} (by decide)

/-- C7: for every non-negative day-of-year the constructed URL equals the
spec's template bit-exactly (day-of-year zero-padded, station lower-case in
the path segment and upper-case in the filename segment), and for
`doy ≤ 999` the day-of-year component has exactly 3 characters. -/
theorem url_matches_spec_template (year doy : Int) (stationId : String) (h : 0 ≤ doy) :
    constructUrl year doy stationId = specUrlTemplate year doy stationId ∧
    (doy ≤ 999 → (formatDoy3 doy).length = 3) := by
  have heq : formatDoy3 doy = zeroPad 3 (Nat.repr doy.toNat) := by
    unfold formatDoy3
    rw [if_neg (by omega)]
  constructor
  · unfold constructUrl specUrlTemplate
    rw [heq]
  · intro h999
    rw [heq]
    exact (pad3_spec ⟨doy.toNat, by omega⟩).1

/-- Witness for C7: the template equality evaluated at year 2023, day 100,
station `HKST`. -/
theorem url_matches_spec_template_witness :
    constructUrl 2023 100 "HKST" = specUrlTemplate 2023 100 "HKST" ∧
    ((100 : Int) ≤ 999 → (formatDoy3 100).length = 3) :=
  url_matches_spec_template 2023 100 "HKST" (by decide)

/-- C8: for every day-of-year in `[0, 999]` the formatted string has
exactly 3 characters, all decimal digits, and denotes the formatted value
(zero-padding); and the day-range iterator enumerates exactly the integers
from `doy_start` to `doy_end` inclusive, in strictly ascending order. -/
theorem doy_format_and_day_range :
    (∀ doy : Int, 0 ≤ doy → doy ≤ 999 →
      (formatDoy3 doy).length = 3 ∧ (formatDoy3 doy).data.all isDigitChar = true ∧
        decimalValue (formatDoy3 doy).data = doy.toNat) ∧
    (∀ a b : Int, List.Pairwise (· < ·) (dayRange a b) ∧
      ∀ x : Int, x ∈ dayRange a b ↔ a ≤ x ∧ x ≤ b) := by
  constructor
  · intro doy h0 h999
    have heq : formatDoy3 doy = zeroPad 3 (Nat.repr doy.toNat) := by
      unfold formatDoy3
      rw [if_neg (by omega)]
    rw [heq]
    exact pad3_spec ⟨doy.toNat, by omega⟩
  · intro a b
    exact ⟨dayRange_pairwise a b, fun x => mem_dayRange⟩

/-- Witness for C8: day 7 formats to 3 digits denoting 7, and the range
from 5 to 9 contains 7. -/
theorem doy_format_and_day_range_witness :
    (formatDoy3 7).length = 3 ∧ decimalValue (formatDoy3 7).data = (7 : Int).toNat ∧
    ((7 : Int) ∈ dayRange 5 9 ↔ (5 : Int) ≤ 7 ∧ (7 : Int) ≤ 9) :=
  ⟨(doy_format_and_day_range.1 7 (by decide) (by decide)).1,
   (doy_format_and_day_range.1 7 (by decide) (by decide)).2.2,
   (doy_format_and_day_range.2 5 9).2 7⟩

/-- C9: the fetch pipeline is insensitive to the ASCII case of the station
identifier: two stations equal up to ASCII case yield the same URL, the
same three local file paths, and the same run on every filesystem and
oracle. -/
theorem station_case_insensitive (s₁ s₂ : String) (h : pyLower s₁ = pyLower s₂)
    (year doy a b : Int) (outDir : String) (od : Option String)
    (o : Int → FetchDayOracle) (fs : FS) :
    constructUrl year doy s₁ = constructUrl year doy s₂ ∧
    gzPath outDir s₁ year doy = gzPath outDir s₂ year doy ∧
    crxPath outDir s₁ year doy = crxPath outDir s₂ year doy ∧
    rnxPath outDir s₁ year doy = rnxPath outDir s₂ year doy ∧
    satref2rinex year a b s₁ od o fs = satref2rinex year a b s₂ od o fs := by
  have hU : pyUpper s₁ = pyUpper s₂ := pyUpper_congr h
  refine ⟨?_, ?_, ?_, ?_, ?_⟩
  · simp [constructUrl, h, hU]
  · simp [gzPath, joinPath, gzFileName, fileStem, hU]
  · simp [crxPath, joinPath, crxFileName, fileStem, hU]
  · simp [rnxPath, joinPath, rnxFileName, fileStem, hU]
  · simp only [satref2rinex]
    exact satrefLoop_station_congr year s₁ s₂
      (od.getD ("downloaded_rinex_files/" ++ Int.repr year)) o hU (dayRange a b) (fs, [])

/-- Witness for C9: `hKsT` and `HKST` are equal up to ASCII case and give
identical URLs, paths and runs. -/
theorem station_case_insensitive_witness :
    constructUrl 2023 100 "hKsT" = constructUrl 2023 100 "HKST" ∧
    gzPath "out" "hKsT" 2023 100 = gzPath "out" "HKST" 2023 100 ∧
    crxPath "out" "hKsT" 2023 100 = crxPath "out" "HKST" 2023 100 ∧
    rnxPath "out" "hKsT" 2023 100 = rnxPath "out" "HKST" 2023 100 ∧
    satref2rinex 2023 100 101 "hKsT" (some "out")
        (fun _ => ⟨.ok, true, .producesRnx, true, true⟩) ∅ =
      satref2rinex 2023 100 101 "HKST" (some "out")
        (fun _ => ⟨.ok, true, .producesRnx, true, true⟩) ∅ :=
  station_case_insensitive "hKsT" "HKST" (by decide) 2023 100 100 101 "out" (some "out")
    (fun _ => ⟨.ok, true, .producesRnx, true, true⟩) ∅

/-- C10: an empty day range (`doy_start > doy_end`) processes zero days:
the fetch pipeline returns the filesystem unchanged with no day logs, and
so does the conversion pipeline when its executable exists; its pre-flight
check can still fail when the executable is missing. -/
theorem empty_range_no_days (year a b : Int) (station : String) (od : Option String)
    (o : Int → FetchDayOracle) (fs : FS) (inputFolder gfzrnxExe stationName cwd : String)
    (year2 : Int) (outputFolder : Option String) (exitCodes : Int → Nat) (fs2 : FS)
    (h : b < a) :
    satref2rinex year a b station od o fs = .ok (fs, []) ∧
    (gfzrnxExe ∈ fs2 → rinex_convert inputFolder gfzrnxExe a b stationName year2
        outputFolder cwd exitCodes fs2 = .ok (fs2, [])) ∧
    (gfzrnxExe ∉ fs2 → rinex_convert inputFolder gfzrnxExe a b stationName year2
        outputFolder cwd exitCodes fs2 = .error .fileNotFoundError) := by
  have hnil := dayRange_eq_nil h
  refine ⟨?_, ?_, ?_⟩
  · simp [satref2rinex, hnil, satrefLoop]
  · intro hexe
    simp [rinex_convert, hexe, hnil, convLoop]
  · intro hexe
    simp [rinex_convert, hexe]

/-- Witness for C10: the range from 10 down to 5 is empty; both pipelines
process zero days. -/
theorem empty_range_no_days_witness :
    satref2rinex 2023 10 5 "HKST" none
        (fun _ => ⟨.httpError, false, .raises, false, false⟩) ∅ = .ok (∅, []) ∧
    (("gfz" : String) ∈ ({"gfz"} : FS) → rinex_convert "in" "gfz" 10 5 "HKPC" 2023 none
        "cwd" (fun _ => 1) {"gfz"} = .ok ({"gfz"}, [])) ∧
    (("gfz" : String) ∉ ({"gfz"} : FS) → rinex_convert "in" "gfz" 10 5 "HKPC" 2023 none
        "cwd" (fun _ => 1) {"gfz"} = .error .fileNotFoundError) :=
  empty_range_no_days 2023 10 5 "HKST" none
    (fun _ => ⟨.httpError, false, .raises, false, false⟩) ∅ "in" "gfz" "HKPC" "cwd"
    2023 none (fun _ => 1) {"gfz"} (by decide)

end GNSSIR
